import Mathlib

/-!
Shallow embedding of `src/transfer.rs` (the `rusb` transfer typestate layer).

Machine integers are modelled as `Nat`/`Int`:
* `c_int` is a 32-bit signed integer (`i32`), so `c_int::try_from(n : usize)`
  succeeds exactly when `n ≤ 2147483647`;
* `c_uint` is `u32`; `usize` is 64-bit unsigned;
* casts (`as`) are modelled with explicit `%` where truncation can occur.

The Rust `Vec<u8>` backing buffer is modelled by `ByteVec`: its logical
contents, its capacity, and an allocation identity that changes exactly when
the vector reallocates.  The native `libusb_transfer` record is modelled by a
structure holding the fields this crate writes; its `buffer` pointer is
`Option Nat`: `none` for the null pointer, `some id` for a pointer to the
start of the backing-buffer allocation whose identity is `id`.
-/

namespace Rusb

/-- Modelled from the spec: the error taxonomy of §7 — `InvalidParam` and
`TooBig` (the crate's `Error` enum lives outside `src/transfer.rs`). -/
inductive Error where
  | InvalidParam
  | TooBig
deriving DecidableEq, Repr

instance {ε α : Type} [DecidableEq ε] [DecidableEq α] : DecidableEq (Except ε α) := by
  intro a b
  cases a <;> cases b
  case error.error x y =>
    exact if h : x = y then isTrue (by rw [h]) else isFalse (by intro hc; cases hc; exact h rfl)
  case ok.ok x y =>
    exact if h : x = y then isTrue (by rw [h]) else isFalse (by intro hc; cases hc; exact h rfl)
  case error.ok x y => exact isFalse (by intro hc; cases hc)
  case ok.error x y => exact isFalse (by intro hc; cases hc)

/-- `c_int::try_from(n : usize)`: succeeds iff `n` fits an `i32`. -/
def c_int_try_from (n : Nat) : Option Int :=
  if n ≤ 2147483647 then some (Int.ofNat n) else none

/-- `u16::try_from(n : usize)`: succeeds iff `n` fits a `u16`. -/
def u16_try_from (n : Nat) : Option Nat :=
  if n ≤ 65535 then some n else none

/-- The `as usize` cast of a `c_int` value (sign-extend, reinterpret mod 2^64). -/
def c_int_as_usize (x : Int) : Nat := (x % (2 : Int) ^ 64).toNat

/-- The `as c_int` cast of a `usize` value (truncate to 32 bits, reinterpret signed). -/
def usize_as_c_int (n : Nat) : Int :=
  let m := n % 2 ^ 32
  if m < 2 ^ 31 then Int.ofNat m else Int.ofNat m - 2 ^ 32

def CLEAR_TRANSFER_FLAGS : Nat := 0
def FILL_WITH_ZERO : Nat := 0
def CONTROL_SETUP_SIZE : Nat := 8

/-- `pub struct ReadLength(c_int)` -/
structure ReadLength where
  val : Int
deriving DecidableEq, Repr

def ReadLength.as_c_int (r : ReadLength) : Int := r.val

def ReadLength.as_usize (r : ReadLength) : Nat := c_int_as_usize r.val

/-- `impl TryFrom<usize> for ReadLength` -/
def ReadLength.try_from (n : Nat) : Except Error ReadLength :=
  match c_int_try_from n with
  | Option.some len => Except.ok ⟨len⟩
  | Option.none => Except.error Error.TooBig

/-- `pub struct WriteData<'a>(&'a [u8])` — the borrowed byte view. -/
structure WriteData where
  data : List Nat
deriving DecidableEq, Repr

/-- `impl TryFrom<&[u8]> for WriteData` -/
def WriteData.try_from (data : List Nat) : Except Error WriteData :=
  match c_int_try_from data.length with
  | Option.some _ => Except.ok ⟨data⟩
  | Option.none => Except.error Error.TooBig

def WriteData.length (w : WriteData) : Nat := w.data.length

def WriteData.length_as_c_int (w : WriteData) : Int := usize_as_c_int w.length

/-- `WriteData::copy_data`: overwrite the given region (which the caller
slices to exactly `self.0.len()` bytes) with the borrowed bytes, doing
nothing when the payload is empty. -/
def WriteData.copy_data (w : WriteData) (buffer : List Nat) : List Nat :=
  if w.length > 0 then w.data else buffer

/-- `pub struct Timeout(c_uint)` -/
structure Timeout where
  val : Nat
deriving DecidableEq, Repr

def Timeout.as_c_uint (t : Timeout) : Nat := t.val

def Timeout.none : Timeout := ⟨0⟩

/-- `Timeout::from_millis(ms: u32)` -/
def Timeout.from_millis (ms : Nat) : Timeout := ⟨ms % 2 ^ 32⟩

def LIBUSB_ENDPOINT_DIR_MASK : Nat := 128
def LIBUSB_ENDPOINT_IN : Nat := 128
def LIBUSB_ENDPOINT_OUT : Nat := 0

/-- `pub struct ReadEndpoint(u8)` -/
structure ReadEndpoint where
  val : Nat
deriving DecidableEq, Repr

/-- `impl TryFrom<u8> for ReadEndpoint`: the direction bit must be IN. -/
def ReadEndpoint.try_from (endpoint : Nat) : Except Error ReadEndpoint :=
  if endpoint &&& LIBUSB_ENDPOINT_DIR_MASK = LIBUSB_ENDPOINT_IN then
    Except.ok ⟨endpoint⟩
  else
    Except.error Error.InvalidParam

def ReadEndpoint.as_u8 (e : ReadEndpoint) : Nat := e.val

/-- `pub struct WriteEndpoint(u8)` -/
structure WriteEndpoint where
  val : Nat
deriving DecidableEq, Repr

/-- `impl TryFrom<u8> for WriteEndpoint`: the direction bit must be OUT. -/
def WriteEndpoint.try_from (endpoint : Nat) : Except Error WriteEndpoint :=
  if endpoint &&& LIBUSB_ENDPOINT_DIR_MASK = LIBUSB_ENDPOINT_OUT then
    Except.ok ⟨endpoint⟩
  else
    Except.error Error.InvalidParam

def WriteEndpoint.as_u8 (e : WriteEndpoint) : Nat := e.val

/-- Modelled from the spec: control-request direction (bit 7: 0 = Out, 1 = In);
the crate's `fields` module is not under `src/`. -/
inductive Direction where
  | In
  | Out
deriving DecidableEq, Repr

/-- Modelled from the spec: request-type category (bits 6-5: 0 = Standard,
1 = Class, 2 = Vendor). -/
inductive RequestType where
  | Standard
  | Class
  | Vendor
deriving DecidableEq, Repr

/-- Modelled from the spec: recipient (bits 4-0: 0 = Device, 1 = Interface,
2 = Endpoint, 3 = Other). -/
inductive Recipient where
  | Device
  | Interface
  | Endpoint
  | Other
deriving DecidableEq, Repr

def Direction.bits : Direction → Nat
  | Direction.In => 128
  | Direction.Out => 0

def RequestType.bits : RequestType → Nat
  | RequestType.Standard => 0
  | RequestType.Class => 32
  | RequestType.Vendor => 64

def Recipient.bits : Recipient → Nat
  | Recipient.Device => 0
  | Recipient.Interface => 1
  | Recipient.Endpoint => 2
  | Recipient.Other => 3

/-- Modelled from the spec: `crate::fields::request_type` packs direction,
type and recipient into one byte per the USB control-request-type layout. -/
def fields.request_type (d : Direction) (rt : RequestType) (r : Recipient) : Nat :=
  d.bits ||| rt.bits ||| r.bits

/-- Modelled from the spec and the libusb constants: transfer kinds and their
raw native values (the crate's `fields::TransferType` is not under `src/`). -/
inductive TransferType where
  | Control
  | Isochronous
  | Bulk
  | Interrupt
deriving DecidableEq, Repr

def TransferType.as_raw : TransferType → Nat
  | TransferType.Control => 0
  | TransferType.Isochronous => 1
  | TransferType.Bulk => 2
  | TransferType.Interrupt => 3

/-- `fn is_valid_control_data_length(data_length: usize) -> bool` -/
def is_valid_control_data_length (data_length : Nat) : Bool :=
  if data_length > 65535 then
    false
  else
    match u16_try_from (data_length + CONTROL_SETUP_SIZE) with
    | Option.some _ => true
    | Option.none => false

/-- `pub struct ControlReadSetup` -/
structure ControlReadSetup where
  request_type : Nat
  request : Nat
  value : Nat
  index : Nat
  data_length : Nat
deriving DecidableEq, Repr

/-- `ControlReadSetup::new` (`data_length` is a `u16`). -/
def ControlReadSetup.new (recipient : Recipient) (rt : RequestType)
    (request : Nat) (value : Nat) (index : Nat) (data_length : Nat) :
    Except Error ControlReadSetup :=
  match is_valid_control_data_length data_length with
  | true =>
      Except.ok ⟨fields.request_type Direction.In rt recipient, request, value, index, data_length⟩
  | false => Except.error Error.TooBig

def ControlReadSetup.total_length (s : ControlReadSetup) : Nat :=
  s.data_length + CONTROL_SETUP_SIZE

def ControlReadSetup.total_length_as_c_int (s : ControlReadSetup) : Int :=
  usize_as_c_int s.total_length

/-- `ControlReadSetup::write_setup_packet`: store the 8 header bytes.  Each
`copy_from_slice` of the two little-endian bytes of a `u16` is modelled as
two indexed stores (`% 256` / `/ 256 % 256` are the `to_le_bytes` bytes). -/
def ControlReadSetup.write_setup_packet (s : ControlReadSetup)
    (buffer : List Nat) : List Nat :=
  ((((((((buffer.set 0 s.request_type).set 1 s.request).set
      2 (s.value % 256)).set 3 (s.value / 256 % 256)).set
      4 (s.index % 256)).set 5 (s.index / 256 % 256)).set
      6 (s.data_length % 256)).set 7 (s.data_length / 256 % 256))

/-- `pub struct ControlWriteSetup<'a>` -/
structure ControlWriteSetup where
  request_type : Nat
  request : Nat
  value : Nat
  index : Nat
  data : List Nat
deriving DecidableEq, Repr

/-- `ControlWriteSetup::new` (`data` is a byte slice). -/
def ControlWriteSetup.new (recipient : Recipient) (rt : RequestType)
    (request : Nat) (value : Nat) (index : Nat) (data : List Nat) :
    Except Error ControlWriteSetup :=
  match is_valid_control_data_length data.length with
  | true =>
      Except.ok ⟨fields.request_type Direction.Out rt recipient, request, value, index, data⟩
  | false => Except.error Error.TooBig

/-- `ControlWriteSetup::data_length`: `self.data.len() as u16`. -/
def ControlWriteSetup.data_length (s : ControlWriteSetup) : Nat :=
  s.data.length % 65536

def ControlWriteSetup.total_length (s : ControlWriteSetup) : Nat :=
  s.data.length + CONTROL_SETUP_SIZE

def ControlWriteSetup.total_length_as_c_int (s : ControlWriteSetup) : Int :=
  usize_as_c_int s.total_length

/-- `ControlWriteSetup::write_setup_packet` (same layout as the read setup). -/
def ControlWriteSetup.write_setup_packet (s : ControlWriteSetup)
    (buffer : List Nat) : List Nat :=
  ((((((((buffer.set 0 s.request_type).set 1 s.request).set
      2 (s.value % 256)).set 3 (s.value / 256 % 256)).set
      4 (s.index % 256)).set 5 (s.index / 256 % 256)).set
      6 (s.data_length % 256)).set 7 (s.data_length / 256 % 256))

/-- `ControlWriteSetup::copy_body_data`: overwrite the given region (the
caller slices off the 8 header bytes first) with the payload, doing nothing
when the payload is empty. -/
def ControlWriteSetup.copy_body_data (s : ControlWriteSetup)
    (buffer : List Nat) : List Nat :=
  if s.data_length > 0 then s.data else buffer

/-- Model of Rust's `Vec<u8>`: logical contents, capacity, and an allocation
identity that changes exactly when the vector reallocates.  (On reallocation
the real `Vec` may reserve more than requested; the model records the
requested length as the new capacity — no claim depends on the capacity
obtained after a reallocation.) -/
structure ByteVec where
  data : List Nat
  cap : Nat
  allocId : Nat
deriving DecidableEq, Repr

def ByteVec.new : ByteVec := ⟨[], 0, 0⟩

/-- `Vec::resize(n, fill)`: truncate when shrinking, extend with `fill` when
growing in place, reallocate when the capacity is exceeded. -/
def ByteVec.resize (v : ByteVec) (n : Nat) (fill : Nat) : ByteVec :=
  if n ≤ v.data.length then
    ⟨v.data.take n, v.cap, v.allocId⟩
  else if n ≤ v.cap then
    ⟨v.data ++ List.replicate (n - v.data.length) fill, v.cap, v.allocId⟩
  else
    ⟨v.data ++ List.replicate (n - v.data.length) fill, n, v.allocId + 1⟩

/-- `Vec::truncate(n)`: drop elements past `n`; capacity untouched. -/
def ByteVec.truncate (v : ByteVec) (n : Nat) : ByteVec :=
  ⟨v.data.take n, v.cap, v.allocId⟩

/-- `Vec::shrink_to_fit`: drop excess capacity (reallocating when there is
any excess to drop). -/
def ByteVec.shrink_to_fit (v : ByteVec) : ByteVec :=
  if v.cap = v.data.length then v else ⟨v.data, v.data.length, v.allocId + 1⟩

/-- The fields of the native `libusb_transfer` record that this crate
writes.  `buffer` is the raw pointer: `none` is null, `some id` points at the
start of the backing-buffer allocation whose identity is `id`. -/
structure libusb_transfer where
  flags : Nat
  dev_handle : Nat
  endpoint : Nat
  transfer_type : Nat
  timeout : Nat
  length : Int
  buffer : Option Nat
deriving DecidableEq, Repr

/-- `struct Internals` -/
structure Internals where
  handle : libusb_transfer
  max_iso_packets : Nat
  buffer : ByteVec
deriving DecidableEq, Repr

/-- `Internals::new_unfilled`: a freshly allocated (zeroed) native transfer
with `flags` cleared, and an empty backing buffer. -/
def Internals.new_unfilled (max_iso_packets : Nat) : Internals :=
  { handle := { flags := CLEAR_TRANSFER_FLAGS, dev_handle := 0, endpoint := 0,
                transfer_type := 0, timeout := 0, length := 0,
                buffer := Option.none },
    max_iso_packets := max_iso_packets,
    buffer := ByteVec.new }

/-- `Internals::set_device_handle` (the handle is modelled by its raw value). -/
def Internals.set_device_handle (s : Internals) (dh : Nat) : Internals :=
  { s with handle := { s.handle with dev_handle := dh } }

def Internals.set_endpoint (s : Internals) (endpoint : Nat) : Internals :=
  { s with handle := { s.handle with endpoint := endpoint } }

/-- `Internals::setup_read`: resize (zero-filling) to the requested length,
then publish length and buffer pointer. -/
def Internals.setup_read (s : Internals) (length : ReadLength) : Internals :=
  let buffer := s.buffer.resize length.as_usize FILL_WITH_ZERO
  { s with
    buffer := buffer,
    handle := { s.handle with
      length := length.as_c_int,
      buffer := Option.some buffer.allocId } }

/-- `Internals::setup_write`: resize to the payload length, copy the payload
into `buffer[0..len]`, then publish length and buffer pointer. -/
def Internals.setup_write (s : Internals) (data : WriteData) : Internals :=
  let buffer := s.buffer.resize data.length FILL_WITH_ZERO
  let written := data.copy_data (buffer.data.take data.length) ++
    buffer.data.drop data.length
  let buffer2 : ByteVec := { buffer with data := written }
  { s with
    buffer := buffer2,
    handle := { s.handle with
      length := data.length_as_c_int,
      buffer := Option.some buffer2.allocId } }

/-- `Internals::setup_control_read`: resize to header + data length, write the
8-byte header into `buffer[0..8]`, then publish length and buffer pointer. -/
def Internals.setup_control_read (s : Internals) (setup : ControlReadSetup) :
    Internals :=
  let buffer := s.buffer.resize setup.total_length FILL_WITH_ZERO
  let d1 := setup.write_setup_packet (buffer.data.take CONTROL_SETUP_SIZE) ++
    buffer.data.drop CONTROL_SETUP_SIZE
  let buffer2 : ByteVec := { buffer with data := d1 }
  { s with
    buffer := buffer2,
    handle := { s.handle with
      length := setup.total_length_as_c_int,
      buffer := Option.some buffer2.allocId } }

/-- `Internals::setup_control_write`: as `setup_control_read`, then copy the
payload into `buffer[8..]`. -/
def Internals.setup_control_write (s : Internals) (setup : ControlWriteSetup) :
    Internals :=
  let buffer := s.buffer.resize setup.total_length FILL_WITH_ZERO
  let d1 := setup.write_setup_packet (buffer.data.take CONTROL_SETUP_SIZE) ++
    buffer.data.drop CONTROL_SETUP_SIZE
  let d2 := d1.take CONTROL_SETUP_SIZE ++
    setup.copy_body_data (d1.drop CONTROL_SETUP_SIZE)
  let buffer2 : ByteVec := { buffer with data := d2 }
  { s with
    buffer := buffer2,
    handle := { s.handle with
      length := setup.total_length_as_c_int,
      buffer := Option.some buffer2.allocId } }

def Internals.set_timeout (s : Internals) (t : Timeout) : Internals :=
  { s with handle := { s.handle with timeout := t.as_c_uint } }

def Internals.set_transfer_type (s : Internals) (tt : TransferType) : Internals :=
  { s with handle := { s.handle with transfer_type := tt.as_raw } }

/-- `Internals::shrink`: truncate the buffer to empty, release its capacity,
and reset the native pointer/length fields to null/0. -/
def Internals.shrink (s : Internals) : Internals :=
  let buffer := (s.buffer.truncate 0).shrink_to_fit
  { s with
    buffer := buffer,
    handle := { s.handle with length := 0, buffer := Option.none } }

/-- `pub struct UnfilledTransfer` -/
structure UnfilledTransfer where
  inner : Internals
deriving DecidableEq, Repr

/-- `pub struct ReadTransfer` -/
structure ReadTransfer where
  inner : Internals
deriving DecidableEq, Repr

/-- `pub struct WriteTransfer` -/
structure WriteTransfer where
  inner : Internals
deriving DecidableEq, Repr

/-- `pub enum Transfer` -/
inductive Transfer where
  | Unfilled : UnfilledTransfer → Transfer
  | ReadBulk : ReadTransfer → Transfer
  | WriteBulk : WriteTransfer → Transfer
  | ReadControl : ReadTransfer → Transfer
  | WriteControl : WriteTransfer → Transfer
  | ReadInterrupt : ReadTransfer → Transfer
  | WriteInterrupt : WriteTransfer → Transfer
deriving DecidableEq, Repr

def UnfilledTransfer.new (max_iso_packets : Nat) : UnfilledTransfer :=
  ⟨Internals.new_unfilled max_iso_packets⟩

/-- `Transfer::new` -/
def Transfer.new (max_iso_packets : Nat) : Transfer :=
  Transfer.Unfilled (UnfilledTransfer.new max_iso_packets)

/-- `UnfilledTransfer::fill_bulk_read` -/
def UnfilledTransfer.fill_bulk_read (self : UnfilledTransfer)
    (device_handle : Nat) (endpoint : ReadEndpoint) (length : ReadLength)
    (timeout : Timeout) : Transfer :=
  let i := self.inner.set_transfer_type TransferType.Bulk
  let i := i.set_device_handle device_handle
  let i := i.set_endpoint endpoint.as_u8
  let i := i.setup_read length
  let i := i.set_timeout timeout
  Transfer.ReadBulk ⟨i⟩

/-- `UnfilledTransfer::fill_bulk_write` -/
def UnfilledTransfer.fill_bulk_write (self : UnfilledTransfer)
    (device_handle : Nat) (endpoint : WriteEndpoint) (data : WriteData)
    (timeout : Timeout) : Transfer :=
  let i := self.inner.set_transfer_type TransferType.Bulk
  let i := i.set_device_handle device_handle
  let i := i.set_endpoint endpoint.as_u8
  let i := i.setup_write data
  let i := i.set_timeout timeout
  Transfer.WriteBulk ⟨i⟩

/-- `UnfilledTransfer::fill_interrupt_read` -/
def UnfilledTransfer.fill_interrupt_read (self : UnfilledTransfer)
    (device_handle : Nat) (endpoint : ReadEndpoint) (length : ReadLength)
    (timeout : Timeout) : Transfer :=
  let i := self.inner.set_transfer_type TransferType.Interrupt
  let i := i.set_device_handle device_handle
  let i := i.set_endpoint endpoint.as_u8
  let i := i.setup_read length
  let i := i.set_timeout timeout
  Transfer.ReadInterrupt ⟨i⟩

/-- `UnfilledTransfer::fill_interrupt_write` -/
def UnfilledTransfer.fill_interrupt_write (self : UnfilledTransfer)
    (device_handle : Nat) (endpoint : WriteEndpoint) (data : WriteData)
    (timeout : Timeout) : Transfer :=
  let i := self.inner.set_transfer_type TransferType.Interrupt
  let i := i.set_device_handle device_handle
  let i := i.set_endpoint endpoint.as_u8
  let i := i.setup_write data
  let i := i.set_timeout timeout
  Transfer.WriteInterrupt ⟨i⟩

/-- `UnfilledTransfer::fill_control_read` (endpoint field is set to 0). -/
def UnfilledTransfer.fill_control_read (self : UnfilledTransfer)
    (device_handle : Nat) (setup : ControlReadSetup) (timeout : Timeout) :
    Transfer :=
  let i := self.inner.set_transfer_type TransferType.Control
  let i := i.set_device_handle device_handle
  let i := i.set_endpoint 0
  let i := i.setup_control_read setup
  let i := i.set_timeout timeout
  Transfer.ReadControl ⟨i⟩

/-- `UnfilledTransfer::fill_control_write` (endpoint field is set to 0). -/
def UnfilledTransfer.fill_control_write (self : UnfilledTransfer)
    (device_handle : Nat) (setup : ControlWriteSetup) (timeout : Timeout) :
    Transfer :=
  let i := self.inner.set_transfer_type TransferType.Control
  let i := i.set_device_handle device_handle
  let i := i.set_endpoint 0
  let i := i.setup_control_write setup
  let i := i.set_timeout timeout
  Transfer.WriteControl ⟨i⟩

/-- `ReadTransfer::clear`: return to Unfilled, touching nothing. -/
def ReadTransfer.clear (self : ReadTransfer) : Transfer :=
  Transfer.Unfilled ⟨self.inner⟩

/-- `ReadTransfer::clear_and_shrink`: shrink, then return to Unfilled. -/
def ReadTransfer.clear_and_shrink (self : ReadTransfer) : Transfer :=
  Transfer.Unfilled ⟨self.inner.shrink⟩

/-- `WriteTransfer::clear`: return to Unfilled, touching nothing. -/
def WriteTransfer.clear (self : WriteTransfer) : Transfer :=
  Transfer.Unfilled ⟨self.inner⟩

/-- `WriteTransfer::clear_and_shrink`: shrink, then return to Unfilled. -/
def WriteTransfer.clear_and_shrink (self : WriteTransfer) : Transfer :=
  Transfer.Unfilled ⟨self.inner.shrink⟩

/-- Projection: the `Internals` carried by any phase of a `Transfer`. -/
def Transfer.internals : Transfer → Internals
  | Transfer.Unfilled u => u.inner
  | Transfer.ReadBulk r => r.inner
  | Transfer.WriteBulk w => w.inner
  | Transfer.ReadControl r => r.inner
  | Transfer.WriteControl w => w.inner
  | Transfer.ReadInterrupt r => r.inner
  | Transfer.WriteInterrupt w => w.inner

/-- Parsing of an encoded 8-byte control header per the wire format of the
spec (§6): request-type, request, then three little-endian 16-bit fields. -/
def parse_setup_header (b : List Nat) : Nat × Nat × Nat × Nat × Nat :=
  (b.getD 0 0, b.getD 1 0,
   b.getD 2 0 + 256 * b.getD 3 0,
   b.getD 4 0 + 256 * b.getD 5 0,
   b.getD 6 0 + 256 * b.getD 7 0)

/-- The native descriptor's buffer pointer names the start of the owned
backing buffer, and its length field equals the backing buffer's length,
which is `n`. -/
def bufferPublished (i : Internals) (n : Nat) : Prop :=
  i.handle.buffer = Option.some i.buffer.allocId ∧
  i.buffer.data.length = n ∧
  i.handle.length = (n : Int)

/-- A sample filled read transfer (bulk read of length 4 on endpoint 0x81),
used as a concrete fixture. -/
def sampleReadTransfer : ReadTransfer :=
  ⟨((UnfilledTransfer.new 0).fill_bulk_read 7 ⟨129⟩ ⟨(4 : Int)⟩
      Timeout.none).internals⟩

theorem ByteVec.resize_length (v : ByteVec) (n fill : Nat) :
    (v.resize n fill).data.length = n := by
  unfold ByteVec.resize
  split
  · simp
    omega
  · split <;> simp <;> omega

theorem ByteVec.resize_data_of_not_le (v : ByteVec) (n fill : Nat)
    (h : ¬ n ≤ v.data.length) :
    (v.resize n fill).data =
      v.data ++ List.replicate (n - v.data.length) fill := by
  unfold ByteVec.resize
  rw [if_neg h]
  split <;> rfl

theorem ByteVec.resize_no_realloc (v : ByteVec) (n fill : Nat) (h : n ≤ v.cap) :
    (v.resize n fill).allocId = v.allocId ∧ (v.resize n fill).cap = v.cap := by
  unfold ByteVec.resize
  rw [if_pos h]
  split
  · exact ⟨rfl, rfl⟩
  · exact ⟨rfl, rfl⟩

theorem usize_as_c_int_eq_ofNat {n : Nat} (h : n ≤ 2147483647) :
    usize_as_c_int n = (n : Int) := by
  unfold usize_as_c_int
  have hm : n % 2 ^ 32 = n := Nat.mod_eq_of_lt (by omega)
  rw [hm, if_pos (by omega)]
  rfl

theorem ReadLength.as_usize_eq {n : Nat} (h : n ≤ 2147483647) :
    (⟨(n : Int)⟩ : ReadLength).as_usize = n := by
  unfold ReadLength.as_usize c_int_as_usize
  have hlt : (n : Int) < (2 : Int) ^ 64 := by
    calc (n : Int) ≤ 2147483647 := by exact_mod_cast h
    _ < (2 : Int) ^ 64 := by norm_num
  rw [Int.emod_eq_of_lt (Int.natCast_nonneg n) hlt]
  simp

theorem ReadLength.try_from_ok {n : Nat} {len : ReadLength}
    (h : ReadLength.try_from n = Except.ok len) :
    n ≤ 2147483647 ∧ len = ⟨(n : Int)⟩ := by
  obtain ⟨v⟩ := len
  by_cases hn : n ≤ 2147483647
  · refine ⟨hn, ?_⟩
    simp [ReadLength.try_from, c_int_try_from, hn] at h
    rw [← h]
  · simp [ReadLength.try_from, c_int_try_from, hn] at h

theorem WriteData.try_from_write_ok {d : List Nat} {w : WriteData}
    (h : WriteData.try_from d = Except.ok w) :
    d.length ≤ 2147483647 ∧ w = ⟨d⟩ := by
  obtain ⟨l⟩ := w
  by_cases hn : d.length ≤ 2147483647
  · refine ⟨hn, ?_⟩
    simp [WriteData.try_from, c_int_try_from, hn] at h
    rw [h]
  · simp [WriteData.try_from, c_int_try_from, hn] at h

theorem is_valid_control_data_length_iff (dl : Nat) :
    (is_valid_control_data_length dl = true) ↔ dl + CONTROL_SETUP_SIZE ≤ 65535 := by
  unfold is_valid_control_data_length u16_try_from CONTROL_SETUP_SIZE
  by_cases h1 : dl > 65535
  · simp [h1]
    omega
  · by_cases h2 : dl + 8 ≤ 65535
    · simp [h1, h2]
    · simp [h1, h2]

theorem ControlReadSetup.new_read_ok {recipient : Recipient} {rt : RequestType}
    {request value index data_length : Nat} {s : ControlReadSetup}
    (h : ControlReadSetup.new recipient rt request value index data_length =
      Except.ok s) :
    data_length + CONTROL_SETUP_SIZE ≤ 65535 ∧
    s = ⟨fields.request_type Direction.In rt recipient, request, value, index,
         data_length⟩ := by
  unfold ControlReadSetup.new at h
  cases hv : is_valid_control_data_length data_length with
  | true =>
    rw [hv] at h
    cases h
    exact ⟨(is_valid_control_data_length_iff data_length).mp hv, rfl⟩
  | false =>
    rw [hv] at h
    cases h

theorem ControlWriteSetup.new_write_ok {recipient : Recipient} {rt : RequestType}
    {request value index : Nat} {data : List Nat} {s : ControlWriteSetup}
    (h : ControlWriteSetup.new recipient rt request value index data =
      Except.ok s) :
    data.length + CONTROL_SETUP_SIZE ≤ 65535 ∧
    s = ⟨fields.request_type Direction.Out rt recipient, request, value, index,
         data⟩ := by
  unfold ControlWriteSetup.new at h
  cases hv : is_valid_control_data_length data.length with
  | true =>
    rw [hv] at h
    cases h
    exact ⟨(is_valid_control_data_length_iff data.length).mp hv, rfl⟩
  | false =>
    rw [hv] at h
    cases h

theorem ControlReadSetup.write_setup_packet_read_length (s : ControlReadSetup)
    (b : List Nat) : (s.write_setup_packet b).length = b.length := by
  simp [ControlReadSetup.write_setup_packet]

theorem ControlWriteSetup.write_setup_packet_write_length (s : ControlWriteSetup)
    (b : List Nat) : (s.write_setup_packet b).length = b.length := by
  simp [ControlWriteSetup.write_setup_packet]

/-- C5: for every `usize` L that fits the native signed-length field (`c_int`,
i.e. L ≤ 2147483647), `ReadLength::try_from(L)` succeeds and the result
round-trips to L through `as_usize`; for every L that does not fit, it fails
with `TooBig`. -/
theorem read_length_try_from_spec (L : Nat) :
    (L ≤ 2147483647 →
      ∃ r, ReadLength.try_from L = Except.ok r ∧ r.as_usize = L) ∧
    (2147483647 < L → ReadLength.try_from L = Except.error Error.TooBig) := by
  constructor
  · intro h
    refine ⟨⟨Int.ofNat L⟩, ?_, ReadLength.as_usize_eq h⟩
    simp [ReadLength.try_from, c_int_try_from, h]
  · intro h
    simp [ReadLength.try_from, c_int_try_from, Nat.not_le.mpr h]

theorem read_length_try_from_spec_witness :
    ((64 ≤ 2147483647) ∧
      ∃ r, ReadLength.try_from 64 = Except.ok r ∧ r.as_usize = 64) ∧
    ((2147483647 < 4294967296) ∧
      ReadLength.try_from 4294967296 = Except.error Error.TooBig) :=
  ⟨⟨by decide, (read_length_try_from_spec 64).1 (by decide)⟩,
   ⟨by norm_num, (read_length_try_from_spec 4294967296).2 (by norm_num)⟩⟩

set_option maxRecDepth 16384

/-- C4: for every endpoint byte E (all 256 values), `ReadEndpoint::try_from`
succeeds iff E's direction bit (bit 7) is IN, `WriteEndpoint::try_from`
succeeds iff it is OUT; on failure the error is `InvalidParam`; in particular
`WriteEndpoint::try_from(0x81)` fails with `InvalidParam`. -/
theorem endpoint_direction_validation :
    (∀ e, e < 256 →
      (((ReadEndpoint.try_from e).isOk = true) ↔ e.testBit 7 = true) ∧
      (((WriteEndpoint.try_from e).isOk = true) ↔ e.testBit 7 = false) ∧
      ((ReadEndpoint.try_from e).isOk = false →
        ReadEndpoint.try_from e = Except.error Error.InvalidParam) ∧
      ((WriteEndpoint.try_from e).isOk = false →
        WriteEndpoint.try_from e = Except.error Error.InvalidParam)) ∧
    WriteEndpoint.try_from 129 = Except.error Error.InvalidParam := by
  constructor
  · decide
  · decide

theorem endpoint_direction_validation_witness :
    (129 < 256) ∧
    (((ReadEndpoint.try_from 129).isOk = true) ↔ (129 : Nat).testBit 7 = true) ∧
    (((WriteEndpoint.try_from 129).isOk = true) ↔ (129 : Nat).testBit 7 = false) :=
  ⟨by decide, (endpoint_direction_validation.1 129 (by decide)).1,
   (endpoint_direction_validation.1 129 (by decide)).2.1⟩

/-- C2: `ControlReadSetup::new` and `ControlWriteSetup::new` succeed iff the
8-byte header plus the data length fits an unsigned 16-bit field, failing
with `TooBig` otherwise; in particular `ControlReadSetup::new` with
`data_length = 65535` fails with `TooBig`. -/
theorem control_setup_new_validation :
    (∀ (recipient : Recipient) (rt : RequestType) (request value index dl : Nat),
      dl < 65536 →
      (((ControlReadSetup.new recipient rt request value index dl).isOk = true) ↔
        CONTROL_SETUP_SIZE + dl ≤ 65535) ∧
      (((ControlReadSetup.new recipient rt request value index dl).isOk = false) →
        ControlReadSetup.new recipient rt request value index dl =
          Except.error Error.TooBig)) ∧
    (∀ (recipient : Recipient) (rt : RequestType) (request value index : Nat)
      (data : List Nat),
      (((ControlWriteSetup.new recipient rt request value index data).isOk = true) ↔
        CONTROL_SETUP_SIZE + data.length ≤ 65535) ∧
      (((ControlWriteSetup.new recipient rt request value index data).isOk = false) →
        ControlWriteSetup.new recipient rt request value index data =
          Except.error Error.TooBig)) ∧
    (∀ (recipient : Recipient) (rt : RequestType) (request value index : Nat),
      ControlReadSetup.new recipient rt request value index 65535 =
        Except.error Error.TooBig) := by
  have hread : ∀ (recipient : Recipient) (rt : RequestType)
      (request value index dl : Nat),
      (((ControlReadSetup.new recipient rt request value index dl).isOk = true) ↔
        CONTROL_SETUP_SIZE + dl ≤ 65535) ∧
      (((ControlReadSetup.new recipient rt request value index dl).isOk = false) →
        ControlReadSetup.new recipient rt request value index dl =
          Except.error Error.TooBig) := by
    intro recipient rt request value index dl
    unfold ControlReadSetup.new
    cases hv : is_valid_control_data_length dl with
    | true =>
      have := (is_valid_control_data_length_iff dl).mp hv
      constructor
      · simp [Except.isOk, Except.toBool]
        omega
      · simp [Except.isOk, Except.toBool]
    | false =>
      have : ¬ dl + CONTROL_SETUP_SIZE ≤ 65535 := fun hc =>
        by rw [(is_valid_control_data_length_iff dl).mpr hc] at hv; cases hv
      constructor
      · simp [Except.isOk, Except.toBool]
        omega
      · simp [Except.isOk, Except.toBool]
  refine ⟨fun recipient rt request value index dl _ =>
    hread recipient rt request value index dl, ?_, ?_⟩
  · intro recipient rt request value index data
    unfold ControlWriteSetup.new
    cases hv : is_valid_control_data_length data.length with
    | true =>
      have := (is_valid_control_data_length_iff data.length).mp hv
      constructor
      · simp [Except.isOk, Except.toBool]
        omega
      · simp [Except.isOk, Except.toBool]
    | false =>
      have : ¬ data.length + CONTROL_SETUP_SIZE ≤ 65535 := fun hc =>
        by rw [(is_valid_control_data_length_iff data.length).mpr hc] at hv; cases hv
      constructor
      · simp [Except.isOk, Except.toBool]
        omega
      · simp [Except.isOk, Except.toBool]
  · intro recipient rt request value index
    have := (hread recipient rt request value index 65535).2
    apply this
    cases hv : (ControlReadSetup.new recipient rt request value index 65535).isOk
    · rfl
    · exfalso
      have h2 := ((hread recipient rt request value index 65535).1).mp hv
      simp [CONTROL_SETUP_SIZE] at h2

theorem Internals.setup_write_data (i : Internals) (w : WriteData) :
    (i.setup_write w).buffer.data = w.data := by
  show ((w.copy_data (((i.buffer.resize w.length FILL_WITH_ZERO)).data.take w.length)) ++
    ((i.buffer.resize w.length FILL_WITH_ZERO)).data.drop w.length) = w.data
  have hres : (i.buffer.resize w.length FILL_WITH_ZERO).data.length = w.length :=
    ByteVec.resize_length _ _ _
  unfold WriteData.copy_data
  by_cases h : 0 < w.length
  · rw [if_pos h, List.drop_eq_nil_of_le (le_of_eq hres), List.append_nil]
  · rw [if_neg h]
    have h0 : w.length = 0 := by omega
    have hd : w.data = [] := List.eq_nil_of_length_eq_zero h0
    rw [h0, hd]
    simp
    unfold ByteVec.resize
    rw [if_pos (Nat.zero_le _)]
    simp

theorem Internals.setup_control_read_data_length (i : Internals)
    (s : ControlReadSetup) :
    (i.setup_control_read s).buffer.data.length = s.total_length := by
  show ((s.write_setup_packet
      ((i.buffer.resize s.total_length FILL_WITH_ZERO).data.take CONTROL_SETUP_SIZE)) ++
    (i.buffer.resize s.total_length FILL_WITH_ZERO).data.drop CONTROL_SETUP_SIZE).length =
    s.total_length
  rw [List.length_append, ControlReadSetup.write_setup_packet_read_length,
      List.length_take, List.length_drop, ByteVec.resize_length]
  unfold ControlReadSetup.total_length CONTROL_SETUP_SIZE
  omega

theorem Internals.setup_control_write_data_length (i : Internals)
    (s : ControlWriteSetup) (hval : s.data.length + CONTROL_SETUP_SIZE ≤ 65535) :
    (i.setup_control_write s).buffer.data.length = s.total_length := by
  have hmod : s.data_length = s.data.length :=
    Nat.mod_eq_of_lt (by unfold CONTROL_SETUP_SIZE at hval; omega)
  have hd1 : ((s.write_setup_packet
      ((i.buffer.resize s.total_length FILL_WITH_ZERO).data.take CONTROL_SETUP_SIZE)) ++
    (i.buffer.resize s.total_length FILL_WITH_ZERO).data.drop CONTROL_SETUP_SIZE).length =
      s.total_length := by
    rw [List.length_append, ControlWriteSetup.write_setup_packet_write_length,
        List.length_take, List.length_drop, ByteVec.resize_length]
    unfold ControlWriteSetup.total_length CONTROL_SETUP_SIZE
    omega
  show ((((s.write_setup_packet _) ++ _).take CONTROL_SETUP_SIZE) ++
    s.copy_body_data (((s.write_setup_packet _) ++ _).drop CONTROL_SETUP_SIZE)).length =
    s.total_length
  unfold ControlWriteSetup.copy_body_data
  rw [List.length_append, List.length_take, hd1]
  by_cases h : 0 < s.data_length
  · rw [if_pos h]
    unfold ControlWriteSetup.total_length CONTROL_SETUP_SIZE at hd1 ⊢
    omega
  · rw [if_neg h]
    rw [List.length_drop, hd1]
    unfold ControlWriteSetup.total_length CONTROL_SETUP_SIZE at hd1 ⊢
    omega

theorem bufferPublished_set_timeout (i : Internals) (t : Timeout) (n : Nat) :
    bufferPublished (i.set_timeout t) n ↔ bufferPublished i n := Iff.rfl

theorem Internals.setup_read_published (i : Internals) {n : Nat}
    (hn : n ≤ 2147483647) :
    bufferPublished (i.setup_read ⟨(n : Int)⟩) n := by
  unfold bufferPublished
  refine ⟨rfl, ?_, rfl⟩
  show (i.buffer.resize (ReadLength.as_usize ⟨(n : Int)⟩) FILL_WITH_ZERO).data.length = n
  rw [ReadLength.as_usize_eq hn, ByteVec.resize_length]

theorem Internals.setup_write_published (i : Internals) {d : List Nat}
    (hd : d.length ≤ 2147483647) :
    bufferPublished (i.setup_write ⟨d⟩) d.length := by
  unfold bufferPublished
  refine ⟨rfl, ?_, ?_⟩
  · rw [Internals.setup_write_data]
  · show usize_as_c_int d.length = (d.length : Int)
    rw [usize_as_c_int_eq_ofNat hd]

theorem Internals.setup_control_read_published (i : Internals)
    {rtb req v idx dl : Nat} (hval : dl + CONTROL_SETUP_SIZE ≤ 65535) :
    bufferPublished (i.setup_control_read ⟨rtb, req, v, idx, dl⟩)
      (CONTROL_SETUP_SIZE + dl) := by
  have hval8 : dl + 8 ≤ 65535 := by
    unfold CONTROL_SETUP_SIZE at hval
    omega
  have htl : ControlReadSetup.total_length ⟨rtb, req, v, idx, dl⟩ = dl + 8 := by
    simp [ControlReadSetup.total_length, CONTROL_SETUP_SIZE]
  unfold bufferPublished
  refine ⟨rfl, ?_, ?_⟩
  · rw [Internals.setup_control_read_data_length, htl]
    unfold CONTROL_SETUP_SIZE
    omega
  · show usize_as_c_int (ControlReadSetup.total_length ⟨rtb, req, v, idx, dl⟩) =
      ((CONTROL_SETUP_SIZE + dl : Nat) : Int)
    rw [htl, usize_as_c_int_eq_ofNat (by omega)]
    unfold CONTROL_SETUP_SIZE
    push_cast
    omega

theorem Internals.setup_control_write_published (i : Internals)
    {rtb req v idx : Nat} {d : List Nat}
    (hval : d.length + CONTROL_SETUP_SIZE ≤ 65535) :
    bufferPublished (i.setup_control_write ⟨rtb, req, v, idx, d⟩)
      (CONTROL_SETUP_SIZE + d.length) := by
  have hval8 : d.length + 8 ≤ 65535 := by
    unfold CONTROL_SETUP_SIZE at hval
    omega
  have htl : ControlWriteSetup.total_length ⟨rtb, req, v, idx, d⟩ = d.length + 8 := by
    simp [ControlWriteSetup.total_length, CONTROL_SETUP_SIZE]
  unfold bufferPublished
  refine ⟨rfl, ?_, ?_⟩
  · rw [Internals.setup_control_write_data_length _ _ hval, htl]
    unfold CONTROL_SETUP_SIZE
    omega
  · show usize_as_c_int (ControlWriteSetup.total_length ⟨rtb, req, v, idx, d⟩) =
      ((CONTROL_SETUP_SIZE + d.length : Nat) : Int)
    rw [htl, usize_as_c_int_eq_ofNat (by omega)]
    unfold CONTROL_SETUP_SIZE
    push_cast
    omega

/-- C1: every fill operation with valid arguments publishes, into the native
resource, a buffer pointer at the start of the owned backing buffer and a
length equal to the backing buffer's length — the requested read length
(bulk/interrupt read), the payload length (bulk/interrupt write), or
8 + data length (control read/write). -/
theorem fill_publishes_buffer (u : UnfilledTransfer) (dh : Nat) (t : Timeout) :
    (∀ (n : Nat) (len : ReadLength) (ep : ReadEndpoint),
      ReadLength.try_from n = Except.ok len →
      bufferPublished (u.fill_bulk_read dh ep len t).internals n ∧
      bufferPublished (u.fill_interrupt_read dh ep len t).internals n) ∧
    (∀ (d : List Nat) (w : WriteData) (ep : WriteEndpoint),
      WriteData.try_from d = Except.ok w →
      bufferPublished (u.fill_bulk_write dh ep w t).internals d.length ∧
      bufferPublished (u.fill_interrupt_write dh ep w t).internals d.length) ∧
    (∀ (recipient : Recipient) (rt : RequestType) (request value index dl : Nat)
       (s : ControlReadSetup),
      ControlReadSetup.new recipient rt request value index dl = Except.ok s →
      bufferPublished (u.fill_control_read dh s t).internals
        (CONTROL_SETUP_SIZE + dl)) ∧
    (∀ (recipient : Recipient) (rt : RequestType) (request value index : Nat)
       (data : List Nat) (s : ControlWriteSetup),
      ControlWriteSetup.new recipient rt request value index data = Except.ok s →
      bufferPublished (u.fill_control_write dh s t).internals
        (CONTROL_SETUP_SIZE + data.length)) := by
  refine ⟨?_, ?_, ?_, ?_⟩
  · intro n len ep h
    obtain ⟨hn, rfl⟩ := ReadLength.try_from_ok h
    exact ⟨(bufferPublished_set_timeout _ t n).mpr
        (Internals.setup_read_published _ hn),
      (bufferPublished_set_timeout _ t n).mpr
        (Internals.setup_read_published _ hn)⟩
  · intro d w ep h
    obtain ⟨hd, rfl⟩ := WriteData.try_from_write_ok h
    exact ⟨(bufferPublished_set_timeout _ t d.length).mpr
        (Internals.setup_write_published _ hd),
      (bufferPublished_set_timeout _ t d.length).mpr
        (Internals.setup_write_published _ hd)⟩
  · intro recipient rt request value index dl s h
    obtain ⟨hval, rfl⟩ := ControlReadSetup.new_read_ok h
    exact (bufferPublished_set_timeout _ t _).mpr
      (Internals.setup_control_read_published _ hval)
  · intro recipient rt request value index data s h
    obtain ⟨hval, rfl⟩ := ControlWriteSetup.new_write_ok h
    exact (bufferPublished_set_timeout _ t _).mpr
      (Internals.setup_control_write_published _ hval)

theorem fill_publishes_buffer_witness :
    (ReadLength.try_from 64 = Except.ok ⟨(64 : Int)⟩) ∧
    bufferPublished ((UnfilledTransfer.new 0).fill_bulk_read 7 ⟨129⟩
      ⟨(64 : Int)⟩ (Timeout.from_millis 1000)).internals 64 :=
  ⟨rfl,
   ((fill_publishes_buffer (UnfilledTransfer.new 0) 7 (Timeout.from_millis 1000)).1
      64 ⟨(64 : Int)⟩ ⟨129⟩ rfl).1⟩

/-- C6: after `setup_read(N)` on a transfer whose previous buffer length was
less than N, every byte at an index from the old length up to N is zero, even
if the previous buffer held non-zero bytes. -/
theorem setup_read_zero_fills (i : Internals) (n : Nat) (len : ReadLength)
    (h : ReadLength.try_from n = Except.ok len) (j : Nat)
    (hold : i.buffer.data.length ≤ j) (hj : j < n) :
    (i.setup_read len).buffer.data[j]? = some FILL_WITH_ZERO := by
  obtain ⟨hn, rfl⟩ := ReadLength.try_from_ok h
  show (i.buffer.resize (ReadLength.as_usize ⟨(n : Int)⟩) FILL_WITH_ZERO).data[j]? =
    some FILL_WITH_ZERO
  rw [ReadLength.as_usize_eq hn,
      ByteVec.resize_data_of_not_le _ _ _ (by omega),
      List.getElem?_append_right hold,
      List.getElem?_replicate_of_lt (by omega)]

theorem setup_read_zero_fills_witness :
    (ReadLength.try_from 3 = Except.ok ⟨(3 : Int)⟩) ∧
    (((UnfilledTransfer.new 0).fill_bulk_write 7 ⟨1⟩ ⟨[5]⟩
        Timeout.none).internals.buffer.data.length ≤ 1) ∧ (1 < 3) ∧
    ((((UnfilledTransfer.new 0).fill_bulk_write 7 ⟨1⟩ ⟨[5]⟩
        Timeout.none).internals.setup_read ⟨(3 : Int)⟩).buffer.data[1]? =
      some FILL_WITH_ZERO) :=
  ⟨rfl, by decide, by decide,
   setup_read_zero_fills _ 3 ⟨(3 : Int)⟩ rfl 1 (by decide) (by decide)⟩

/-- C10: `setup_read(N)` zero-fills only the extension beyond the old logical
length: every index below `min (old length) N` keeps its previous byte, so a
read buffer reused via `clear()` after an earlier fill still carries that
fill's bytes in its preserved prefix before submission. -/
theorem setup_read_preserves_prefix :
    (∀ (i : Internals) (n : Nat) (len : ReadLength),
      ReadLength.try_from n = Except.ok len →
      ∀ j, j < i.buffer.data.length → j < n →
      (i.setup_read len).buffer.data[j]? = i.buffer.data[j]?) ∧
    (∀ (r : ReadTransfer) (u : UnfilledTransfer), r.clear = Transfer.Unfilled u →
      ∀ (dh : Nat) (ep : ReadEndpoint) (n : Nat) (len : ReadLength) (t : Timeout),
      ReadLength.try_from n = Except.ok len → 0 < n →
      0 < r.inner.buffer.data.length →
      (u.fill_bulk_read dh ep len t).internals.buffer.data[0]? =
        r.inner.buffer.data[0]?) := by
  have key : ∀ (i : Internals) (n : Nat) (len : ReadLength),
      ReadLength.try_from n = Except.ok len →
      ∀ j, j < i.buffer.data.length → j < n →
      (i.setup_read len).buffer.data[j]? = i.buffer.data[j]? := by
    intro i n len h j hj1 hj2
    obtain ⟨hn, rfl⟩ := ReadLength.try_from_ok h
    show (i.buffer.resize (ReadLength.as_usize ⟨(n : Int)⟩) FILL_WITH_ZERO).data[j]? =
      i.buffer.data[j]?
    rw [ReadLength.as_usize_eq hn]
    unfold ByteVec.resize
    split
    · show (i.buffer.data.take n)[j]? = i.buffer.data[j]?
      exact List.getElem?_take_of_lt hj2
    · split
      · show (i.buffer.data ++ _)[j]? = i.buffer.data[j]?
        exact List.getElem?_append_left hj1
      · show (i.buffer.data ++ _)[j]? = i.buffer.data[j]?
        exact List.getElem?_append_left hj1
  refine ⟨key, ?_⟩
  intro r u hclear dh ep n len t h hn hlen
  unfold ReadTransfer.clear at hclear
  injection hclear with h2
  subst h2
  exact key r.inner n len h 0 hlen hn

theorem setup_read_preserves_prefix_witness :
    (ReadLength.try_from 3 = Except.ok ⟨(3 : Int)⟩) ∧
    (0 < (((UnfilledTransfer.new 0).fill_bulk_write 7 ⟨1⟩ ⟨[5]⟩
        Timeout.none).internals).buffer.data.length) ∧ (0 < 3) ∧
    (((((UnfilledTransfer.new 0).fill_bulk_write 7 ⟨1⟩ ⟨[5]⟩
        Timeout.none).internals).setup_read ⟨(3 : Int)⟩).buffer.data[0]? =
      (((UnfilledTransfer.new 0).fill_bulk_write 7 ⟨1⟩ ⟨[5]⟩
        Timeout.none).internals).buffer.data[0]?) :=
  ⟨rfl, by decide, by decide,
   setup_read_preserves_prefix.1 _ 3 ⟨(3 : Int)⟩ rfl 0 (by decide) (by decide)⟩

theorem control_setup_new_validation_witness :
    (2 < 65536) ∧
    (((ControlReadSetup.new Recipient.Device RequestType.Vendor 1 4660 0 2).isOk
       = true) ↔ CONTROL_SETUP_SIZE + 2 ≤ 65535) :=
  ⟨by decide,
   (control_setup_new_validation.1 Recipient.Device RequestType.Vendor 1 4660 0 2
     (by decide)).1⟩

theorem Internals.shrink_spec (i : Internals) :
    (i.shrink).buffer.data = [] ∧ (i.shrink).buffer.cap = 0 ∧
    (i.shrink).handle.buffer = Option.none ∧ (i.shrink).handle.length = 0 := by
  refine ⟨?_, ?_, rfl, rfl⟩
  · show ((i.buffer.truncate 0).shrink_to_fit).data = []
    unfold ByteVec.truncate ByteVec.shrink_to_fit
    split <;> simp
  · show ((i.buffer.truncate 0).shrink_to_fit).cap = 0
    unfold ByteVec.truncate ByteVec.shrink_to_fit
    split
    · next h => simpa using h
    · simp

/-- C7: `clear()` preserves the backing buffer (capacity included), so a
subsequent fill of size at most the previous capacity performs no
reallocation; `clear_and_shrink()` truncates the buffer to empty, releases
its capacity, and resets the native pointer/length fields to null/0, so any
subsequent fill starts from zero capacity. -/
theorem clear_keeps_capacity_shrink_releases :
    (∀ r : ReadTransfer, r.clear = Transfer.Unfilled ⟨r.inner⟩) ∧
    (∀ w : WriteTransfer, w.clear = Transfer.Unfilled ⟨w.inner⟩) ∧
    (∀ (r : ReadTransfer) (u : UnfilledTransfer), r.clear = Transfer.Unfilled u →
      ∀ (dh n : Nat) (ep : ReadEndpoint) (len : ReadLength) (t : Timeout),
      ReadLength.try_from n = Except.ok len → n ≤ r.inner.buffer.cap →
      (u.fill_bulk_read dh ep len t).internals.buffer.allocId =
        r.inner.buffer.allocId ∧
      (u.fill_bulk_read dh ep len t).internals.buffer.cap =
        r.inner.buffer.cap) ∧
    (∀ (w : WriteTransfer) (u : UnfilledTransfer), w.clear = Transfer.Unfilled u →
      ∀ (dh : Nat) (ep : WriteEndpoint) (d : List Nat) (wd : WriteData)
        (t : Timeout),
      WriteData.try_from d = Except.ok wd → d.length ≤ w.inner.buffer.cap →
      (u.fill_bulk_write dh ep wd t).internals.buffer.allocId =
        w.inner.buffer.allocId ∧
      (u.fill_bulk_write dh ep wd t).internals.buffer.cap =
        w.inner.buffer.cap) ∧
    (∀ r : ReadTransfer,
      (r.clear_and_shrink).internals.buffer.data = [] ∧
      (r.clear_and_shrink).internals.buffer.cap = 0 ∧
      (r.clear_and_shrink).internals.handle.buffer = Option.none ∧
      (r.clear_and_shrink).internals.handle.length = 0) ∧
    (∀ w : WriteTransfer,
      (w.clear_and_shrink).internals.buffer.data = [] ∧
      (w.clear_and_shrink).internals.buffer.cap = 0 ∧
      (w.clear_and_shrink).internals.handle.buffer = Option.none ∧
      (w.clear_and_shrink).internals.handle.length = 0) := by
  refine ⟨fun r => rfl, fun w => rfl, ?_, ?_, ?_, ?_⟩
  · intro r u hclear dh n ep len t hok hcap
    obtain ⟨hn, rfl⟩ := ReadLength.try_from_ok hok
    unfold ReadTransfer.clear at hclear
    injection hclear with h2
    subst h2
    have hres := ByteVec.resize_no_realloc r.inner.buffer n FILL_WITH_ZERO hcap
    constructor
    · show (r.inner.buffer.resize (ReadLength.as_usize ⟨(n : Int)⟩)
        FILL_WITH_ZERO).allocId = r.inner.buffer.allocId
      rw [ReadLength.as_usize_eq hn]
      exact hres.1
    · show (r.inner.buffer.resize (ReadLength.as_usize ⟨(n : Int)⟩)
        FILL_WITH_ZERO).cap = r.inner.buffer.cap
      rw [ReadLength.as_usize_eq hn]
      exact hres.2
  · intro w u hclear dh ep d wd t hok hcap
    obtain ⟨hd, rfl⟩ := WriteData.try_from_write_ok hok
    unfold WriteTransfer.clear at hclear
    injection hclear with h2
    subst h2
    have hres := ByteVec.resize_no_realloc w.inner.buffer d.length FILL_WITH_ZERO hcap
    exact ⟨hres.1, hres.2⟩
  · intro r
    exact Internals.shrink_spec r.inner
  · intro w
    exact Internals.shrink_spec w.inner

theorem clear_keeps_capacity_shrink_releases_witness :
    (sampleReadTransfer.clear = Transfer.Unfilled ⟨sampleReadTransfer.inner⟩) ∧
    (ReadLength.try_from 3 = Except.ok ⟨(3 : Int)⟩) ∧
    (3 ≤ sampleReadTransfer.inner.buffer.cap) ∧
    (((⟨sampleReadTransfer.inner⟩ : UnfilledTransfer).fill_bulk_read 8 ⟨129⟩
        ⟨(3 : Int)⟩ Timeout.none).internals.buffer.allocId =
      sampleReadTransfer.inner.buffer.allocId) :=
  ⟨clear_keeps_capacity_shrink_releases.1 sampleReadTransfer, rfl, by decide,
   (clear_keeps_capacity_shrink_releases.2.2.1 sampleReadTransfer
      ⟨sampleReadTransfer.inner⟩ rfl 8 3 ⟨129⟩ ⟨(3 : Int)⟩ Timeout.none rfl
      (by decide)).1⟩

/-- C9: `clear()` (unlike `clear_and_shrink()`) leaves the native resource's
buffer pointer and length fields unchanged: after a fill of nonzero length,
the Unfilled phase reached via `clear()` still records that nonzero length
and still points into the retained backing buffer; only `shrink()` (via
`clear_and_shrink()`) resets those fields to null and 0. -/
theorem clear_leaves_native_fields :
    (∀ r : ReadTransfer, (r.clear).internals.handle = r.inner.handle ∧
      (r.clear).internals.buffer = r.inner.buffer) ∧
    (∀ w : WriteTransfer, (w.clear).internals.handle = w.inner.handle ∧
      (w.clear).internals.buffer = w.inner.buffer) ∧
    (∀ (u : UnfilledTransfer) (dh n : Nat) (ep : ReadEndpoint)
       (len : ReadLength) (t : Timeout) (r : ReadTransfer),
      ReadLength.try_from n = Except.ok len → 0 < n →
      u.fill_bulk_read dh ep len t = Transfer.ReadBulk r →
      (r.clear).internals.handle.length = (n : Int) ∧
      (r.clear).internals.handle.length ≠ 0 ∧
      (r.clear).internals.handle.buffer =
        Option.some ((r.clear).internals.buffer.allocId)) ∧
    (∀ r : ReadTransfer,
      (r.clear_and_shrink).internals.handle.buffer = Option.none ∧
      (r.clear_and_shrink).internals.handle.length = 0) ∧
    (∀ w : WriteTransfer,
      (w.clear_and_shrink).internals.handle.buffer = Option.none ∧
      (w.clear_and_shrink).internals.handle.length = 0) := by
  refine ⟨fun r => ⟨rfl, rfl⟩, fun w => ⟨rfl, rfl⟩, ?_, ?_, ?_⟩
  · intro u dh n ep len t r hok hn hfill
    obtain ⟨hn2, rfl⟩ := ReadLength.try_from_ok hok
    unfold UnfilledTransfer.fill_bulk_read at hfill
    injection hfill with h2
    subst h2
    refine ⟨rfl, ?_, rfl⟩
    show ((n : Nat) : Int) ≠ 0
    exact Int.natCast_ne_zero.mpr (by omega)
  · intro r
    exact ⟨(Internals.shrink_spec r.inner).2.2.1, (Internals.shrink_spec r.inner).2.2.2⟩
  · intro w
    exact ⟨(Internals.shrink_spec w.inner).2.2.1, (Internals.shrink_spec w.inner).2.2.2⟩

theorem clear_leaves_native_fields_witness :
    (ReadLength.try_from 4 = Except.ok ⟨(4 : Int)⟩) ∧ (0 < 4) ∧
    ((UnfilledTransfer.new 0).fill_bulk_read 7 ⟨129⟩ ⟨(4 : Int)⟩ Timeout.none =
      Transfer.ReadBulk sampleReadTransfer) ∧
    ((sampleReadTransfer.clear).internals.handle.length = ((4 : Nat) : Int) ∧
     (sampleReadTransfer.clear).internals.handle.length ≠ 0 ∧
     (sampleReadTransfer.clear).internals.handle.buffer =
       Option.some ((sampleReadTransfer.clear).internals.buffer.allocId)) :=
  ⟨rfl, by decide, rfl,
   clear_leaves_native_fields.2.2.1 (UnfilledTransfer.new 0) 7 4 ⟨129⟩
     ⟨(4 : Int)⟩ Timeout.none sampleReadTransfer rfl (by decide) rfl⟩

/-- C8: `fill_bulk_read` with validated IN endpoint 0x81, length 64 and a
1000 ms timeout yields a transfer whose native fields are buffer length 64,
endpoint 0x81, kind Bulk, timeout 1000, in the ReadBulk phase; and every fill
operation is the in-order composition: set transfer-kind, set device handle,
set endpoint (0 for control), run the matching `setup_*`, set timeout. -/
theorem fill_bulk_read_scenario_and_order :
    (∀ (u : UnfilledTransfer) (dh : Nat) (ep : ReadEndpoint) (len : ReadLength),
      ReadEndpoint.try_from 129 = Except.ok ep →
      ReadLength.try_from 64 = Except.ok len →
      (u.fill_bulk_read dh ep len
        (Timeout.from_millis 1000)).internals.handle.length = (64 : Int) ∧
      (u.fill_bulk_read dh ep len
        (Timeout.from_millis 1000)).internals.buffer.data.length = 64 ∧
      (u.fill_bulk_read dh ep len
        (Timeout.from_millis 1000)).internals.handle.endpoint = 129 ∧
      (u.fill_bulk_read dh ep len
        (Timeout.from_millis 1000)).internals.handle.transfer_type =
        TransferType.Bulk.as_raw ∧
      (u.fill_bulk_read dh ep len
        (Timeout.from_millis 1000)).internals.handle.timeout = 1000 ∧
      ∃ r : ReadTransfer, u.fill_bulk_read dh ep len
        (Timeout.from_millis 1000) = Transfer.ReadBulk r) ∧
    (∀ (u : UnfilledTransfer) (dh : Nat) (ep : ReadEndpoint) (len : ReadLength)
       (t : Timeout),
      u.fill_bulk_read dh ep len t = Transfer.ReadBulk
        ⟨((((u.inner.set_transfer_type TransferType.Bulk).set_device_handle
          dh).set_endpoint ep.as_u8).setup_read len).set_timeout t⟩) ∧
    (∀ (u : UnfilledTransfer) (dh : Nat) (ep : WriteEndpoint) (d : WriteData)
       (t : Timeout),
      u.fill_bulk_write dh ep d t = Transfer.WriteBulk
        ⟨((((u.inner.set_transfer_type TransferType.Bulk).set_device_handle
          dh).set_endpoint ep.as_u8).setup_write d).set_timeout t⟩) ∧
    (∀ (u : UnfilledTransfer) (dh : Nat) (ep : ReadEndpoint) (len : ReadLength)
       (t : Timeout),
      u.fill_interrupt_read dh ep len t = Transfer.ReadInterrupt
        ⟨((((u.inner.set_transfer_type TransferType.Interrupt).set_device_handle
          dh).set_endpoint ep.as_u8).setup_read len).set_timeout t⟩) ∧
    (∀ (u : UnfilledTransfer) (dh : Nat) (ep : WriteEndpoint) (d : WriteData)
       (t : Timeout),
      u.fill_interrupt_write dh ep d t = Transfer.WriteInterrupt
        ⟨((((u.inner.set_transfer_type TransferType.Interrupt).set_device_handle
          dh).set_endpoint ep.as_u8).setup_write d).set_timeout t⟩) ∧
    (∀ (u : UnfilledTransfer) (dh : Nat) (s : ControlReadSetup) (t : Timeout),
      u.fill_control_read dh s t = Transfer.ReadControl
        ⟨((((u.inner.set_transfer_type TransferType.Control).set_device_handle
          dh).set_endpoint 0).setup_control_read s).set_timeout t⟩) ∧
    (∀ (u : UnfilledTransfer) (dh : Nat) (s : ControlWriteSetup) (t : Timeout),
      u.fill_control_write dh s t = Transfer.WriteControl
        ⟨((((u.inner.set_transfer_type TransferType.Control).set_device_handle
          dh).set_endpoint 0).setup_control_write s).set_timeout t⟩) := by
  refine ⟨?_, fun u dh ep len t => rfl, fun u dh ep d t => rfl,
    fun u dh ep len t => rfl, fun u dh ep d t => rfl,
    fun u dh s t => rfl, fun u dh s t => rfl⟩
  intro u dh ep len hep hlen
  rw [show ReadEndpoint.try_from 129 = Except.ok (⟨129⟩ : ReadEndpoint) from rfl]
    at hep
  rw [show ReadLength.try_from 64 = Except.ok (⟨(64 : Int)⟩ : ReadLength) from rfl]
    at hlen
  injection hep with hep2
  injection hlen with hlen2
  subst hep2
  subst hlen2
  refine ⟨rfl, ?_, rfl, rfl, rfl, ⟨_, rfl⟩⟩
  show ((u.inner.buffer.resize (ReadLength.as_usize ⟨(64 : Int)⟩)
    FILL_WITH_ZERO)).data.length = 64
  rw [show (⟨(64 : Int)⟩ : ReadLength).as_usize = 64 from rfl,
      ByteVec.resize_length]

theorem fill_bulk_read_scenario_and_order_witness :
    (ReadEndpoint.try_from 129 = Except.ok ⟨129⟩) ∧
    (ReadLength.try_from 64 = Except.ok ⟨(64 : Int)⟩) ∧
    (((UnfilledTransfer.new 0).fill_bulk_read 7 ⟨129⟩ ⟨(64 : Int)⟩
        (Timeout.from_millis 1000)).internals.handle.length = (64 : Int) ∧
     ((UnfilledTransfer.new 0).fill_bulk_read 7 ⟨129⟩ ⟨(64 : Int)⟩
        (Timeout.from_millis 1000)).internals.buffer.data.length = 64 ∧
     ((UnfilledTransfer.new 0).fill_bulk_read 7 ⟨129⟩ ⟨(64 : Int)⟩
        (Timeout.from_millis 1000)).internals.handle.endpoint = 129 ∧
     ((UnfilledTransfer.new 0).fill_bulk_read 7 ⟨129⟩ ⟨(64 : Int)⟩
        (Timeout.from_millis 1000)).internals.handle.transfer_type =
       TransferType.Bulk.as_raw ∧
     ((UnfilledTransfer.new 0).fill_bulk_read 7 ⟨129⟩ ⟨(64 : Int)⟩
        (Timeout.from_millis 1000)).internals.handle.timeout = 1000 ∧
     ∃ r : ReadTransfer, (UnfilledTransfer.new 0).fill_bulk_read 7 ⟨129⟩
        ⟨(64 : Int)⟩ (Timeout.from_millis 1000) = Transfer.ReadBulk r) :=
  ⟨rfl, rfl,
   fill_bulk_read_scenario_and_order.1 (UnfilledTransfer.new 0) 7 ⟨129⟩
     ⟨(64 : Int)⟩ rfl rfl⟩

theorem set_chain_eq (b : List Nat) (hb : 8 ≤ b.length)
    (x0 x1 x2 x3 x4 x5 x6 x7 : Nat) :
    ((((((((b.set 0 x0).set 1 x1).set 2 x2).set 3 x3).set 4 x4).set 5 x5).set
      6 x6).set 7 x7) =
      x0 :: x1 :: x2 :: x3 :: x4 :: x5 :: x6 :: x7 :: b.drop 8 := by
  match b, hb with
  | b0 :: b1 :: b2 :: b3 :: b4 :: b5 :: b6 :: b7 :: rest, _ => rfl

theorem ControlReadSetup.read_header_parses (s : ControlReadSetup)
    (hv : s.value < 65536) (hi : s.index < 65536) (hdl : s.data_length < 65536)
    (buffer : List Nat) (hb : 8 ≤ buffer.length) :
    parse_setup_header (s.write_setup_packet buffer) =
      (s.request_type, s.request, s.value, s.index, s.data_length) := by
  unfold ControlReadSetup.write_setup_packet
  rw [set_chain_eq buffer hb]
  show (s.request_type, s.request,
    s.value % 256 + 256 * (s.value / 256 % 256),
    s.index % 256 + 256 * (s.index / 256 % 256),
    s.data_length % 256 + 256 * (s.data_length / 256 % 256)) = _
  have h1 : s.value % 256 + 256 * (s.value / 256 % 256) = s.value := by omega
  have h2 : s.index % 256 + 256 * (s.index / 256 % 256) = s.index := by omega
  have h3 : s.data_length % 256 + 256 * (s.data_length / 256 % 256) =
      s.data_length := by omega
  rw [h1, h2, h3]

theorem ControlWriteSetup.write_header_parses (s : ControlWriteSetup)
    (hv : s.value < 65536) (hi : s.index < 65536)
    (buffer : List Nat) (hb : 8 ≤ buffer.length) :
    parse_setup_header (s.write_setup_packet buffer) =
      (s.request_type, s.request, s.value, s.index, s.data_length) := by
  unfold ControlWriteSetup.write_setup_packet
  rw [set_chain_eq buffer hb]
  show (s.request_type, s.request,
    s.value % 256 + 256 * (s.value / 256 % 256),
    s.index % 256 + 256 * (s.index / 256 % 256),
    s.data_length % 256 + 256 * (s.data_length / 256 % 256)) = _
  have hdl : s.data_length < 65536 := Nat.mod_lt _ (by omega)
  have h1 : s.value % 256 + 256 * (s.value / 256 % 256) = s.value := by omega
  have h2 : s.index % 256 + 256 * (s.index / 256 % 256) = s.index := by omega
  have h3 : s.data_length % 256 + 256 * (s.data_length / 256 % 256) =
      s.data_length := by omega
  rw [h1, h2, h3]

theorem Internals.setup_control_write_data (i : Internals)
    (s : ControlWriteSetup) (h0 : 0 < s.data.length)
    (hval : s.data.length + CONTROL_SETUP_SIZE ≤ 65535) :
    (i.setup_control_write s).buffer.data =
      s.request_type :: s.request :: (s.value % 256) :: (s.value / 256 % 256) ::
      (s.index % 256) :: (s.index / 256 % 256) :: (s.data_length % 256) ::
      (s.data_length / 256 % 256) :: s.data := by
  have hres : (i.buffer.resize s.total_length FILL_WITH_ZERO).data.length =
      s.total_length := ByteVec.resize_length _ _ _
  have ht8 : ((i.buffer.resize s.total_length FILL_WITH_ZERO).data.take 8).length
      = 8 := by
    rw [List.length_take, hres]
    unfold ControlWriteSetup.total_length CONTROL_SETUP_SIZE
    omega
  have hdl : 0 < s.data_length := by
    show 0 < s.data.length % 65536
    unfold CONTROL_SETUP_SIZE at hval
    omega
  show ((s.write_setup_packet
      ((i.buffer.resize s.total_length FILL_WITH_ZERO).data.take 8) ++
      (i.buffer.resize s.total_length FILL_WITH_ZERO).data.drop 8).take 8 ++
    s.copy_body_data ((s.write_setup_packet
      ((i.buffer.resize s.total_length FILL_WITH_ZERO).data.take 8) ++
      (i.buffer.resize s.total_length FILL_WITH_ZERO).data.drop 8).drop 8)) = _
  unfold ControlWriteSetup.write_setup_packet
  rw [set_chain_eq _ (le_of_eq ht8.symm)]
  rw [List.drop_eq_nil_of_le (le_of_eq ht8)]
  rw [List.take_left' (by rfl), List.drop_left' (by rfl)]
  unfold ControlWriteSetup.copy_body_data
  rw [if_pos hdl]
  rfl

/-- C3: for every valid control setup, `write_setup_packet` serializes the
8-byte header so that parsing it recovers request-type, request, value, index
and data length (little-endian 16-bit fields); and `fill_control_write` on
`ControlWriteSetup::new(Device, Vendor, 0x01, 0x1234, 0, [0xAA, 0xBB])`
yields the 10-byte buffer
`[request_type_byte, 0x01, 0x34, 0x12, 0x00, 0x00, 0x02, 0x00, 0xAA, 0xBB]`. -/
theorem control_setup_serialization :
    (∀ (recipient : Recipient) (rt : RequestType) (request value index dl : Nat)
       (s : ControlReadSetup),
      ControlReadSetup.new recipient rt request value index dl = Except.ok s →
      value < 65536 → index < 65536 →
      ∀ buffer : List Nat, 8 ≤ buffer.length →
      parse_setup_header (s.write_setup_packet buffer) =
        (fields.request_type Direction.In rt recipient, request, value, index,
         dl)) ∧
    (∀ (recipient : Recipient) (rt : RequestType) (request value index : Nat)
       (data : List Nat) (s : ControlWriteSetup),
      ControlWriteSetup.new recipient rt request value index data = Except.ok s →
      value < 65536 → index < 65536 →
      ∀ buffer : List Nat, 8 ≤ buffer.length →
      parse_setup_header (s.write_setup_packet buffer) =
        (fields.request_type Direction.Out rt recipient, request, value, index,
         data.length)) ∧
    (∀ (u : UnfilledTransfer) (dh : Nat) (t : Timeout) (s : ControlWriteSetup),
      ControlWriteSetup.new Recipient.Device RequestType.Vendor 1 4660 0
        [170, 187] = Except.ok s →
      s.total_length = 10 ∧
      (u.fill_control_write dh s t).internals.buffer.data =
        [fields.request_type Direction.Out RequestType.Vendor Recipient.Device,
         1, 52, 18, 0, 0, 2, 0, 170, 187]) := by
  refine ⟨?_, ?_, ?_⟩
  · intro recipient rt request value index dl s h hv hi buffer hb
    obtain ⟨hval, rfl⟩ := ControlReadSetup.new_read_ok h
    have hdl : dl < 65536 := by
      unfold CONTROL_SETUP_SIZE at hval
      omega
    exact ControlReadSetup.read_header_parses _ hv hi hdl buffer hb
  · intro recipient rt request value index data s h hv hi buffer hb
    obtain ⟨hval, rfl⟩ := ControlWriteSetup.new_write_ok h
    have h5 : (⟨fields.request_type Direction.Out rt recipient, request, value,
        index, data⟩ : ControlWriteSetup).data_length = data.length := by
      show data.length % 65536 = data.length
      unfold CONTROL_SETUP_SIZE at hval
      omega
    rw [← h5]
    exact ControlWriteSetup.write_header_parses _ hv hi buffer hb
  · intro u dh t s h
    obtain ⟨hval, rfl⟩ := ControlWriteSetup.new_write_ok h
    refine ⟨rfl, ?_⟩
    exact Internals.setup_control_write_data
      (((u.inner.set_transfer_type TransferType.Control).set_device_handle
        dh).set_endpoint 0)
      ⟨fields.request_type Direction.Out RequestType.Vendor Recipient.Device,
       1, 4660, 0, [170, 187]⟩ (by decide) (by decide)

theorem control_setup_serialization_witness :
    (ControlWriteSetup.new Recipient.Device RequestType.Vendor 1 4660 0
      [170, 187] = Except.ok ⟨64, 1, 4660, 0, [170, 187]⟩) ∧
    ((⟨64, 1, 4660, 0, [170, 187]⟩ : ControlWriteSetup).total_length = 10 ∧
     ((UnfilledTransfer.new 0).fill_control_write 7 ⟨64, 1, 4660, 0, [170, 187]⟩
        Timeout.none).internals.buffer.data =
       [fields.request_type Direction.Out RequestType.Vendor Recipient.Device,
        1, 52, 18, 0, 0, 2, 0, 170, 187]) :=
  ⟨rfl, control_setup_serialization.2.2 (UnfilledTransfer.new 0) 7 Timeout.none
     ⟨64, 1, 4660, 0, [170, 187]⟩ rfl⟩

end Rusb
